import Mathlib

/-
Verification of the Team-Comparison analytics pipeline (src/app2.py).

The pipeline is embedded shallowly:
  * a pandas DataFrame row becomes a `PlayerRow` record; the frame itself a
    `List PlayerRow` in row order;
  * float arithmetic is modelled by exact rationals (`ℚ`); the one place the
    two differ is division by zero (float gives `inf`/`nan`, ℚ gives 0), which
    is treated structurally where it matters (economy = 0 rows);
  * `groupby("country")` groups by the distinct country keys in ascending
    order (pandas `groupby` defaults to `sort=True`);
  * `sort_values(ascending=False)` is modelled as a stable ascending sort
    followed by index reversal: pandas `nargsort` computes an ascending
    argsort with the chosen kind and then reverses the indexer when
    `ascending=False`; on the small frames involved numpy's default sort
    degenerates to a stable insertion sort, so ties of the descending result
    appear in reverse row order;
  * `.iloc[0]` on a possibly-empty frame becomes `List.head?`, with `none`
    modelling the `IndexError` raised on an empty frame.
-/

unseal Rat.mul Rat.add Rat.sub Rat.inv Rat.ofScientific

/-- One row of the loaded CSV after column-name normalization
(columns country, role, player_name, batting_sr, batting_average,
wickets, economy).  `role` is `Option String`: `none` models a null/NaN
cell in the role column. -/
structure PlayerRow where
  country : String
  role : Option String
  player_name : String
  batting_sr : ℚ
  batting_average : ℚ
  wickets : ℚ
  economy : ℚ
  deriving Repr, DecidableEq

/-- A row after the feature-engineering block added the three derived
columns (src/app2.py lines 55-60). -/
structure MetricRow extends PlayerRow where
  batting_impact : ℚ
  bowling_impact : ℚ
  allrounder_index : ℚ
  deriving Repr, DecidableEq

/-- Filter Stage: `filtered_df = df[df["country"].isin(teams)]`
(src/app2.py line 52). -/
def filtered_df (df : List PlayerRow) (teams : List String) : List PlayerRow :=
  df.filter (fun r => teams.contains r.country)

/-- Metric Engine, row-wise (src/app2.py lines 55-60):
`batting_impact = batting_sr * batting_average`,
`bowling_impact = wickets * (1 / economy)`,
`allrounder_index = 0.6 * batting_impact + 0.4 * bowling_impact`. -/
def addMetrics (r : PlayerRow) : MetricRow :=
  let bi := r.batting_sr * r.batting_average
  let bo := r.wickets * (1 / r.economy)
  { r with
    batting_impact := bi
    bowling_impact := bo
    allrounder_index := 0.6 * bi + 0.4 * bo }

/-- The whole filtered frame after feature engineering. -/
def metricRows (rows : List PlayerRow) : List MetricRow :=
  rows.map addMetrics

/-- Boolean test that `pat` is an initial segment of `l`. -/
def isPrefixList : List Char → List Char → Bool
  | [], _ => true
  | _ :: _, [] => false
  | a :: as, b :: bs => a == b && isPrefixList as bs

/-- Boolean test that `pat` occurs contiguously inside `l`. -/
def hasSubList (pat : List Char) : List Char → Bool
  | [] => isPrefixList pat []
  | c :: t => isPrefixList pat (c :: t) || hasSubList pat t

/-- The character list of a string lowercased character by character
(pandas `.str.lower()`; the roles involved are ASCII). -/
def lowerChars (s : String) : List Char :=
  s.toList.map Char.toLower

/-- Substring containment on strings: `pat` occurs in the lowercased `s`
(pandas `.str.lower().str.contains(pat)` with a literal pattern). -/
def lower_contains (s pat : String) : Bool :=
  hasSubList pat.toList (lowerChars s)

/-- Role classification
(`filtered_df["role"].str.lower().str.contains("all", na=False)`,
src/app2.py lines 152 and 206-208): lowercase the role and look for the
substring "all"; a null role yields `false` (`na=False`). -/
def isAllRounder (r : PlayerRow) : Bool :=
  match r.role with
  | none => false
  | some s => lower_contains s "all"

/-- Arithmetic mean of a list of rationals (pandas `.mean()` over a
non-empty group; the empty list yields 0 by ℚ division, but the pipeline
only evaluates it on non-empty groups). -/
def mean (l : List ℚ) : ℚ :=
  l.sum / (l.length : ℚ)

/-- Lexicographic (code-point) comparison of character lists, the order
Python uses on strings. -/
def charListLt : List Char → List Char → Bool
  | _, [] => false
  | [], _ :: _ => true
  | a :: as, b :: bs =>
    if a < b then true else if b < a then false else charListLt as bs

/-- Code-point order on strings. -/
def strLt (a b : String) : Bool :=
  charListLt a.toList b.toList

/-- The group keys of `groupby("country")`: the distinct countries in
ascending order (pandas `groupby` defaults to `sort=True`). -/
def groupKeys (rows : List MetricRow) : List String :=
  List.insertionSort (fun a b => strLt a b = true) ((rows.map (·.country)).eraseDups)

/-- The rows of one `groupby("country")` group. -/
def teamRows (rows : List MetricRow) (c : String) : List MetricRow :=
  rows.filter (fun r => r.country == c)

/-- The all-rounder-classified subset of the filtered frame
(src/app2.py line 152 and lines 206-208). -/
def arRows (rows : List MetricRow) : List MetricRow :=
  rows.filter (fun r => isAllRounder r.toPlayerRow)

/-- One team's all-rounder rows (the `ar_team` group for key `c`). -/
def arRowsFor (rows : List MetricRow) (c : String) : List MetricRow :=
  (arRows rows).filter (fun r => r.country == c)

/-- The `allrounder_index` column of the merged aggregate
(src/app2.py lines 151-158): the mean over the team's all-rounder rows,
and 0 when the team is absent from the all-rounder group
(`merge(..., how="left").fillna(0)`). -/
def arIndexFor (rows : List MetricRow) (c : String) : ℚ :=
  if (arRowsFor rows c).isEmpty then 0
  else mean ((arRowsFor rows c).map (·.allrounder_index))

/-- The power-index weighting (src/app2.py lines 160-164). -/
def powerFormula (bi bo ar : ℚ) : ℚ :=
  0.5 * bi + 0.3 * bo + 0.2 * ar

/-- One row of the per-team aggregate table. -/
structure TeamAgg where
  country : String
  batting_impact : ℚ
  bowling_impact : ℚ
  allrounder_index : ℚ
  power_index : ℚ
  deriving Repr, DecidableEq

/-- Aggregation Engine (src/app2.py lines 145-164): group the filtered
frame by country, take the mean `batting_impact` and `bowling_impact`,
left-merge the all-rounder means (absent teams filled with 0), and add
the weighted `power_index` column. -/
def team_strength (rows : List MetricRow) : List TeamAgg :=
  (groupKeys rows).map (fun c =>
    let g := teamRows rows c
    let bi := mean (g.map (·.batting_impact))
    let bo := mean (g.map (·.bowling_impact))
    let ar := arIndexFor rows c
    { country := c
      batting_impact := bi
      bowling_impact := bo
      allrounder_index := ar
      power_index := powerFormula bi bo ar })

/-- pandas `sort_values(key, ascending=False)` (default kind): an
ascending argsort followed by reversal of the indexer (pandas
`nargsort`); numpy's sort is a stable insertion sort on the small inputs
involved, so this is a stable ascending sort reversed. -/
def sortValuesDesc {α : Type} (key : α → ℚ) (l : List α) : List α :=
  (List.insertionSort (fun a b => key a ≤ key b) l).reverse

/-- Best-team determination (src/app2.py line 166):
`team_strength.sort_values("power_index", ascending=False).iloc[0]`.
`none` models the `IndexError` that `.iloc[0]` raises on an empty frame. -/
def best_team (l : List TeamAgg) : Option TeamAgg :=
  (sortValuesDesc (·.power_index) l).head?

/-- The per-metric display table of `team_bar_chart`
(src/app2.py lines 71-77): group by country, take the metric's mean,
sort descending. -/
def team_bar_chart (rows : List MetricRow) (metric : MetricRow → ℚ) :
    List (String × ℚ) :=
  sortValuesDesc Prod.snd
    ((groupKeys rows).map (fun c => (c, mean ((teamRows rows c).map metric))))

/-- Pressure adjustment (src/app2.py lines 104-109). -/
def pressure_adjustment (strength : ℚ) (overs_left : ℤ) : ℚ :=
  if overs_left ≤ 5 then strength * 1.15
  else if overs_left ≤ 10 then strength * 1.05
  else strength

/-- The pressure multiplier implicit in `pressure_adjustment`. -/
def pressureMul (overs_left : ℤ) : ℚ :=
  if overs_left ≤ 5 then 1.15
  else if overs_left ≤ 10 then 1.05
  else 1

/-- Win-probability pair (src/app2.py lines 273-274):
`prob1 = adj1 / (adj1 + adj2)`, `prob2 = 1 - prob1`. -/
def win_probs (adj1 adj2 : ℚ) : ℚ × ℚ :=
  let prob1 := adj1 / (adj1 + adj2)
  (prob1, 1 - prob1)

/-- Modelled from the spec (§7 `DataQualityError` policy): the rows the
spec says should contribute to a team's aggregate means, namely the
team's rows excluding those with `economy = 0`.  Stated from the spec's
words for comparison with the code's `teamRows`. -/
def specContribRows (rows : List MetricRow) (c : String) : List MetricRow :=
  (teamRows rows c).filter (fun r => decide (r.economy ≠ 0))

/- ------------------------------------------------------------------ -/
/- Concrete sample data used by witnesses and counterexamples.         -/
/- ------------------------------------------------------------------ -/

/-- The example row of the spec (§8): batting_sr=130, batting_average=40,
wickets=10, economy=5. -/
def indiaRow : PlayerRow :=
  { country := "India"
    role := some "Batter"
    player_name := "P1"
    batting_sr := 130
    batting_average := 40
    wickets := 10
    economy := 5 }

/-- An ordinary batter row with batting_impact 3000 and bowling_impact 2. -/
def batterRow : PlayerRow :=
  { country := "India"
    role := some "Batter"
    player_name := "R1"
    batting_sr := 100
    batting_average := 30
    wickets := 2
    economy := 1 }

/-- A one-row dataset whose single team has mean batting_impact 3000,
mean bowling_impact 2 and no all-rounders. -/
def sampleIndia : List PlayerRow :=
  [batterRow]

/-- The aggregate row `team_strength` produces for `sampleIndia`. -/
def aggIndia : TeamAgg :=
  { country := "India"
    batting_impact := 3000
    bowling_impact := 2
    allrounder_index := 0
    power_index := 1500.6 }

/-- A zero-economy row (the §7 `DataQualityError` edge case). -/
def zeroEcoRow : PlayerRow :=
  { country := "India"
    role := some "Bowler"
    player_name := "Z0"
    batting_sr := 50
    batting_average := 10
    wickets := 3
    economy := 0 }

/-- A dataset holding one ordinary row and one zero-economy row for the
same team. -/
def sampleEco : List PlayerRow :=
  [batterRow, zeroEcoRow]

/-- Two one-player teams "A" and "B" with identical statistics, so their
power indices tie exactly. -/
def tieRows : List PlayerRow :=
  [{ country := "A"
     role := some "Batter"
     player_name := "PA"
     batting_sr := 10
     batting_average := 10
     wickets := 2
     economy := 1 },
   { country := "B"
     role := some "Batter"
     player_name := "PB"
     batting_sr := 10
     batting_average := 10
     wickets := 2
     economy := 1 }]

/- ------------------------------------------------------------------ -/
/- Theorems.                                                           -/
/- ------------------------------------------------------------------ -/

/-- C1: on every row of the filtered table the Metric Engine sets
`batting_impact = batting_sr * batting_average`,
`bowling_impact = wickets * (1 / economy)` and
`allrounder_index = 0.6 * batting_impact + 0.4 * bowling_impact`; on the
spec's example row (batting_sr=130, batting_average=40, wickets=10,
economy=5) this gives 5200, 2 and 3120.8. -/
theorem C1_metric_formulas (df : List PlayerRow) (teams : List String)
    (m : MetricRow) (h : m ∈ metricRows (filtered_df df teams)) :
    m.batting_impact = m.batting_sr * m.batting_average ∧
    m.bowling_impact = m.wickets * (1 / m.economy) ∧
    m.allrounder_index = 0.6 * m.batting_impact + 0.4 * m.bowling_impact ∧
    (addMetrics indiaRow).batting_impact = 5200 ∧
    (addMetrics indiaRow).bowling_impact = 2 ∧
    (addMetrics indiaRow).allrounder_index = 3120.8 := by
  simp only [metricRows] at h
  obtain ⟨p, hp, rfl⟩ := List.mem_map.1 h
  exact ⟨rfl, rfl, rfl, by decide, by decide, by decide⟩

/-- Witness for C1: the theorem applied to the spec's example row inside
a one-row dataset. -/
theorem C1_metric_formulas_witness :
    (addMetrics indiaRow).allrounder_index = 3120.8 :=
  (C1_metric_formulas [indiaRow] ["India"] (addMetrics indiaRow)
    (by decide)).2.2.2.2.2

/-- C3: for 1 ≤ overs_left ≤ 20, `pressure_adjustment` multiplies the
strength by 1.15 when overs_left ≤ 5, by 1.05 when 5 < overs_left ≤ 10,
and leaves it unchanged when overs_left > 10; the boundaries 5, 6 and 11
land in the 1.15, 1.05 and unadjusted tiers respectively. -/
theorem C3_pressure_tiers (s : ℚ) (o : ℤ) (h1 : 1 ≤ o) (h2 : o ≤ 20) :
    (o ≤ 5 → pressure_adjustment s o = s * 1.15) ∧
    (5 < o → o ≤ 10 → pressure_adjustment s o = s * 1.05) ∧
    (10 < o → pressure_adjustment s o = s) ∧
    pressure_adjustment s 5 = s * 1.15 ∧
    pressure_adjustment s 6 = s * 1.05 ∧
    pressure_adjustment s 11 = s := by
  refine ⟨fun h => by rw [pressure_adjustment, if_pos h],
    fun h5 h10 => by rw [pressure_adjustment, if_neg (by omega), if_pos h10],
    fun h => by rw [pressure_adjustment, if_neg (by omega), if_neg (by omega)],
    by rw [pressure_adjustment, if_pos (by omega)],
    by rw [pressure_adjustment, if_neg (by omega), if_pos (by omega)],
    by rw [pressure_adjustment, if_neg (by omega), if_neg (by omega)]⟩

/-- Witness for C3 at strength 2 and overs_left 5. -/
theorem C3_pressure_tiers_witness :
    pressure_adjustment 2 5 = 2 * (1.15 : ℚ) :=
  (C3_pressure_tiers 2 5 (by decide) (by decide)).2.2.2.1

/-- C4: for non-negative adjusted strengths, not both zero, the
Simulation Model returns `prob1 = a / (a + b)` and `prob2 = 1 - prob1`;
the pair sums to exactly 1 and each component lies in [0, 1]. -/
theorem C4_win_probability (a b : ℚ) (ha : 0 ≤ a) (hb : 0 ≤ b)
    (hab : ¬(a = 0 ∧ b = 0)) :
    (win_probs a b).1 = a / (a + b) ∧
    (win_probs a b).2 = 1 - a / (a + b) ∧
    (win_probs a b).1 + (win_probs a b).2 = 1 ∧
    0 ≤ (win_probs a b).1 ∧ (win_probs a b).1 ≤ 1 ∧
    0 ≤ (win_probs a b).2 ∧ (win_probs a b).2 ≤ 1 := by
  have hpos : 0 < a + b := by
    rcases eq_or_lt_of_le ha with h | h
    · rcases eq_or_lt_of_le hb with h' | h'
      · exact absurd ⟨h.symm, h'.symm⟩ hab
      · linarith
    · linarith
  have h1 : (win_probs a b).1 = a / (a + b) := rfl
  have h2 : (win_probs a b).2 = 1 - a / (a + b) := rfl
  have hle : a / (a + b) ≤ 1 := by
    rw [div_le_one hpos]; linarith
  have hge : 0 ≤ a / (a + b) := div_nonneg ha (le_of_lt hpos)
  exact ⟨h1, h2, by rw [h1, h2]; ring, by rw [h1]; exact hge,
    by rw [h1]; exact hle, by rw [h2]; linarith, by rw [h2]; linarith⟩

/-- Witness for C4 at adjusted strengths 3 and 1. -/
theorem C4_win_probability_witness :
    (win_probs 3 1).1 + (win_probs 3 1).2 = 1 :=
  (C4_win_probability 3 1 (by norm_num) (by norm_num) (by decide)).2.2.1

theorem arIndexFor_eq_zero {rows : List MetricRow} {c : String}
    (he : arRowsFor rows c = []) : arIndexFor rows c = 0 := by
  rw [arIndexFor, he]
  simp

theorem arIndexFor_eq_mean {rows : List MetricRow} {c : String}
    (hne : arRowsFor rows c ≠ []) :
    arIndexFor rows c = mean ((arRowsFor rows c).map (·.allrounder_index)) := by
  rw [arIndexFor, if_neg]
  simp [hne]

/-- C2: every row of the per-team aggregate table carries the arithmetic
mean `batting_impact` and `bowling_impact` of that team's filtered rows,
and `power_index = 0.5*batting_impact + 0.3*bowling_impact +
0.2*allrounder_index`; the spec's example: means 3000 and 2 with
allrounder_index 0 give power_index 1500.6. -/
theorem C2_team_aggregates (rows : List MetricRow) (t : TeamAgg)
    (h : t ∈ team_strength rows) :
    t.batting_impact = mean ((teamRows rows t.country).map (·.batting_impact)) ∧
    t.bowling_impact = mean ((teamRows rows t.country).map (·.bowling_impact)) ∧
    t.allrounder_index = arIndexFor rows t.country ∧
    t.power_index =
      powerFormula t.batting_impact t.bowling_impact t.allrounder_index ∧
    powerFormula 3000 2 0 = 1500.6 := by
  simp only [team_strength] at h
  obtain ⟨c, hc, rfl⟩ := List.mem_map.1 h
  exact ⟨rfl, rfl, rfl, rfl, by decide⟩

/-- Witness for C2 on the one-team dataset `sampleIndia`. -/
theorem C2_team_aggregates_witness :
    aggIndia.power_index =
      powerFormula aggIndia.batting_impact aggIndia.bowling_impact
        aggIndia.allrounder_index ∧
    powerFormula 3000 2 0 = 1500.6 :=
  (C2_team_aggregates (metricRows sampleIndia) aggIndia (by decide)).2.2.2

/-- C5: a team of the aggregate with no all-rounder-classified rows gets
`allrounder_index = 0` exactly (never missing, never an error), and a
team with all-rounder rows gets the mean `allrounder_index` over only
those rows. -/
theorem C5_allrounder_default (rows : List MetricRow) (t : TeamAgg)
    (h : t ∈ team_strength rows) :
    (arRowsFor rows t.country = [] → t.allrounder_index = 0) ∧
    (arRowsFor rows t.country ≠ [] →
      t.allrounder_index =
        mean ((arRowsFor rows t.country).map (·.allrounder_index))) := by
  simp only [team_strength] at h
  obtain ⟨c, hc, rfl⟩ := List.mem_map.1 h
  exact ⟨fun he => arIndexFor_eq_zero he, fun hne => arIndexFor_eq_mean hne⟩

/-- Witness for C5: the single team of `sampleIndia` has no all-rounder
rows and its `allrounder_index` is exactly 0. -/
theorem C5_allrounder_default_witness :
    aggIndia.allrounder_index = 0 :=
  (C5_allrounder_default (metricRows sampleIndia) aggIndia (by decide)).1
    (by decide)

theorem isPrefixList_iff (pat : List Char) :
    ∀ l, isPrefixList pat l = true ↔ ∃ t, pat ++ t = l := by
  induction pat with
  | nil => intro l; simp [isPrefixList]
  | cons a as ih =>
    intro l
    cases l with
    | nil => simp [isPrefixList]
    | cons b bs =>
      simp only [isPrefixList, Bool.and_eq_true, beq_iff_eq, ih,
        List.cons_append, List.cons.injEq]
      constructor
      · rintro ⟨rfl, t, ht⟩
        exact ⟨t, rfl, ht⟩
      · rintro ⟨t, rfl, ht⟩
        exact ⟨rfl, t, ht⟩

theorem hasSubList_iff (pat : List Char) :
    ∀ l, hasSubList pat l = true ↔ ∃ l₁ l₂, l = l₁ ++ pat ++ l₂ := by
  intro l
  induction l with
  | nil =>
    rw [hasSubList, isPrefixList_iff]
    constructor
    · rintro ⟨t, ht⟩
      rcases List.append_eq_nil.1 ht with ⟨rfl, rfl⟩
      exact ⟨[], [], rfl⟩
    · rintro ⟨l₁, l₂, hl⟩
      rcases List.append_eq_nil.1 (List.append_eq_nil.1 hl.symm).1 with ⟨rfl, rfl⟩
      exact ⟨[], by simp⟩
  | cons c t ih =>
    rw [hasSubList, Bool.or_eq_true]
    constructor
    · rintro (h | h)
      · obtain ⟨t', ht'⟩ := (isPrefixList_iff _ _).1 h
        exact ⟨[], t', by simp [← ht']⟩
      · obtain ⟨l₁, l₂, hl⟩ := ih.1 h
        exact ⟨c :: l₁, l₂, by simp [hl]⟩
    · rintro ⟨l₁, l₂, hl⟩
      cases l₁ with
      | nil =>
        exact Or.inl ((isPrefixList_iff _ _).2 ⟨l₂, by simpa using hl.symm⟩)
      | cons d ds =>
        have hl' : c = d ∧ t = ds ++ (pat ++ l₂) := by simpa using hl
        exact Or.inr (ih.2 ⟨ds, l₂, hl'.2.trans (List.append_assoc ds pat l₂).symm⟩)

/-- C6: a row is classified as an all-rounder iff its role, lowercased
character by character, contains the substring "all"; a row with a null
role is classified not-all-rounder (the classification is total, so it
never raises on null). -/
theorem C6_role_classification :
    (∀ r : PlayerRow, isAllRounder r = true ↔
      ∃ s, r.role = some s ∧
        ∃ l₁ l₂, lowerChars s = l₁ ++ "all".toList ++ l₂) ∧
    (∀ (c pn : String) (sr avg w e : ℚ),
      isAllRounder
        { country := c, role := none, player_name := pn, batting_sr := sr,
          batting_average := avg, wickets := w, economy := e } = false) := by
  constructor
  · intro r
    cases hr : r.role with
    | none => simp [isAllRounder, hr]
    | some s => simp [isAllRounder, hr, lower_contains, hasSubList_iff]
  · intro c pn sr avg w e
    rfl

/-- C7: on an empty team selection the Filter Stage and the aggregate
construction do produce empty tables, but the best-team determination
has no row to return: `best_team` of the empty aggregate is `none`,
modelling the `IndexError` that `.iloc[0]` raises at src/app2.py line
166 — the pipeline does not tolerate the empty selection without error. -/
theorem C7_empty_selection :
    (∀ df : List PlayerRow, filtered_df df [] = []) ∧
    team_strength (metricRows (filtered_df sampleIndia [])) = [] ∧
    best_team (team_strength (metricRows (filtered_df sampleIndia []))) = none := by
  refine ⟨fun df => ?_, by decide, by decide⟩
  simp [filtered_df]

/-- C8 counterexample: in a dataset holding an ordinary row and a
zero-economy row for the same team, the zero-economy row is among the
rows the per-team aggregate means range over (the `groupby` group),
contrary to the claimed exclusion; the spec's exclusion set omits it. -/
theorem C8_counterexample :
    zeroEcoRow.economy = 0 ∧
    addMetrics zeroEcoRow ∈ teamRows (metricRows sampleEco) "India" ∧
    addMetrics zeroEcoRow ∉ specContribRows (metricRows sampleEco) "India" ∧
    (teamRows (metricRows sampleEco) "India").length = 2 ∧
    (specContribRows (metricRows sampleEco) "India").length = 1 := by
  decide

/-- C8 amended: rows with economy = 0 are not excluded and no warning is
reported: every filtered row of a team, zero-economy included, belongs
to the group its aggregate means are taken over, while the spec's
exclusion set omits it (the ungated division of src/app2.py line 56
propagates a non-finite bowling_impact into the team mean). -/
theorem C8_no_exclusion (rows : List PlayerRow) (r : PlayerRow)
    (hr : r ∈ rows) (he : r.economy = 0) :
    addMetrics r ∈ teamRows (metricRows rows) r.country ∧
    addMetrics r ∉ specContribRows (metricRows rows) r.country := by
  have hm : addMetrics r ∈ metricRows rows := by
    simp only [metricRows]
    exact List.mem_map.2 ⟨r, hr, rfl⟩
  constructor
  · rw [teamRows]
    exact List.mem_filter.2 ⟨hm, by simp [addMetrics]⟩
  · rw [specContribRows]
    intro hmem
    have h2 := (List.mem_filter.1 hmem).2
    rw [decide_eq_true_iff] at h2
    exact h2 he

/-- Witness for the amended C8 on the concrete two-row dataset. -/
theorem C8_no_exclusion_witness :
    addMetrics zeroEcoRow ∈ teamRows (metricRows sampleEco) "India" ∧
    addMetrics zeroEcoRow ∉ specContribRows (metricRows sampleEco) "India" :=
  C8_no_exclusion sampleEco zeroEcoRow (by decide) (by decide)

theorem sortValuesDesc_perm {α : Type} (key : α → ℚ) (l : List α) :
    (sortValuesDesc key l).Perm l := by
  rw [sortValuesDesc]
  exact (List.reverse_perm _).trans (List.perm_insertionSort _ l)

theorem sortValuesDesc_sorted {α : Type} (key : α → ℚ) (l : List α) :
    (sortValuesDesc key l).Pairwise (fun a b => key b ≤ key a) := by
  rw [sortValuesDesc, List.pairwise_reverse]
  haveI ht : IsTotal α (fun a b => key a ≤ key b) := ⟨fun a b => le_total _ _⟩
  haveI htr : IsTrans α (fun a b => key a ≤ key b) :=
    ⟨fun _ _ _ hab hbc => le_trans hab hbc⟩
  exact List.sorted_insertionSort _ l

/-- C9 counterexample: two teams "A" and "B" with identical statistics
tie exactly on power_index; "A" comes first in the grouped order, yet
the best-team determination returns "B" — the tie is not broken by first
occurrence. -/
theorem C9_counterexample :
    (team_strength (metricRows tieRows)).map (·.country) = ["A", "B"] ∧
    (team_strength (metricRows tieRows)).map (·.power_index) = [50.6, 50.6] ∧
    (best_team (team_strength (metricRows tieRows))).map (·.country) = some "B" := by
  decide

/-- C9 amended: the best team is a row attaining the maximal power_index
of the aggregate, and every per-metric display table is a permutation of
the grouped means sorted descending by the metric; ties, however, come
out in reverse of the grouped order (pandas' descending sort reverses a
stable ascending argsort), i.e. by last occurrence, not first. -/
theorem C9_best_and_order (l : List TeamAgg) (h : l ≠ []) :
    (∃ t, best_team l = some t ∧ t ∈ l ∧
      ∀ u ∈ l, u.power_index ≤ t.power_index) ∧
    (∀ (rows : List MetricRow) (metric : MetricRow → ℚ),
      (team_bar_chart rows metric).Perm
        ((groupKeys rows).map (fun c => (c, mean ((teamRows rows c).map metric)))) ∧
      (team_bar_chart rows metric).Pairwise (fun p q => q.2 ≤ p.2)) := by
  constructor
  · have hperm := sortValuesDesc_perm (fun t : TeamAgg => t.power_index) l
    have hsor := sortValuesDesc_sorted (fun t : TeamAgg => t.power_index) l
    cases hL : sortValuesDesc (fun t : TeamAgg => t.power_index) l with
    | nil =>
      rw [hL] at hperm
      exact absurd hperm.symm.eq_nil h
    | cons t rest =>
      rw [hL] at hperm hsor
      refine ⟨t, ?_, hperm.subset (List.mem_cons_self t rest), ?_⟩
      · rw [best_team, hL]
        rfl
      · intro u hu
        rcases List.mem_cons.1 (hperm.symm.subset hu) with rfl | hu'
        · exact le_refl _
        · exact (List.pairwise_cons.1 hsor).1 u hu'
  · intro rows metric
    rw [team_bar_chart]
    exact ⟨sortValuesDesc_perm _ _, sortValuesDesc_sorted _ _⟩

/-- Witness for the amended C9 on the concrete tied dataset. -/
theorem C9_best_and_order_witness :
    ∃ t, best_team (team_strength (metricRows tieRows)) = some t ∧
      t ∈ team_strength (metricRows tieRows) ∧
      ∀ u ∈ team_strength (metricRows tieRows),
        u.power_index ≤ t.power_index :=
  (C9_best_and_order (team_strength (metricRows tieRows)) (by decide)).1

theorem pressure_adjustment_eq_mul (s : ℚ) (o : ℤ) :
    pressure_adjustment s o = s * pressureMul o := by
  rw [pressure_adjustment, pressureMul]
  split_ifs <;> ring

theorem pressureMul_pos (o : ℤ) : 0 < pressureMul o := by
  rw [pressureMul]
  split_ifs <;> norm_num

/-- C10: for a fixed overs_left in [1, 20] and strictly positive power
indices, team 1's win probability exceeds 1/2 iff its power_index
exceeds team 2's, and equals 1/2 iff the power indices are equal: the
common pressure multiplier cancels out of the normalized probability. -/
theorem C10_probability_order (s1 s2 : ℚ) (o : ℤ) (h1 : 0 < s1)
    (h2 : 0 < s2) (ho1 : 1 ≤ o) (ho2 : o ≤ 20) :
    ((win_probs (pressure_adjustment s1 o) (pressure_adjustment s2 o)).1 > 1 / 2
      ↔ s2 < s1) ∧
    ((win_probs (pressure_adjustment s1 o) (pressure_adjustment s2 o)).1 = 1 / 2
      ↔ s1 = s2) := by
  have hm := pressureMul_pos o
  have hp : (win_probs (pressure_adjustment s1 o) (pressure_adjustment s2 o)).1
      = s1 / (s1 + s2) := by
    show pressure_adjustment s1 o /
        (pressure_adjustment s1 o + pressure_adjustment s2 o) = s1 / (s1 + s2)
    rw [pressure_adjustment_eq_mul, pressure_adjustment_eq_mul,
      show s1 * pressureMul o + s2 * pressureMul o = (s1 + s2) * pressureMul o by ring,
      mul_div_mul_right _ _ (ne_of_gt hm)]
  have hs : 0 < s1 + s2 := by linarith
  constructor
  · rw [hp, gt_iff_lt, div_lt_div_iff₀ (by norm_num) hs]
    constructor <;> intro hlt <;> linarith
  · rw [hp, div_eq_div_iff hs.ne' (by norm_num)]
    constructor <;> intro heq <;> linarith

/-- Witness for C10 at power indices 2 and 1 with 3 overs left. -/
theorem C10_probability_order_witness :
    (win_probs (pressure_adjustment 2 3) (pressure_adjustment 1 3)).1 > 1 / 2 :=
  ((C10_probability_order 2 1 3 (by norm_num) (by norm_num) (by decide)
    (by decide)).1).mpr (by norm_num)
